import Mathlib

/-!
Verification of the position-accounting core of a concentrated-liquidity
market maker (`programs/core/src/states/position.rs`).

The embedding models machine integers as `Nat` (unsigned 64-bit values,
reduced modulo `2^64` exactly where the source's arithmetic wraps) and
`Int` (the signed 64-bit `liquidity_delta`).  The fallible method
`PositionState::update` takes `&mut self` and returns `Result<()>`; it is
embedded as a function returning the record after the call together with
an outcome: `Ok`, a typed `Err` carried by the `Result` channel, or
`Abort` for a Rust panic (the source's `.unwrap()` calls), which is not a
typed error.
-/

/-- `2^64`, the modulus of unsigned 64-bit arithmetic. -/
def u64_MOD : Nat := 18446744073709551616

/-- Unsigned 64-bit subtraction `a - b` with the wrapping (two's-complement
modular) semantics the source relies on for the fee-growth delta: for
`a, b < 2^64` this is `(a - b) mod 2^64`. -/
def u64_sub (a b : Nat) : Nat := (a + u64_MOD - b) % u64_MOD

/-- Unsigned 64-bit wrapping addition, used by the source's
`self.tokens_owed_0 += tokens_owed_0` under the comment
"overflow is acceptable". -/
def u64_add (a b : Nat) : Nat := (a + b) % u64_MOD

/-- Modelled from the spec: the fixed-point scale constant
`fixed_point_32::Q32` (its defining module is not in the sources at hand).
Spec: "Q32 fixed-point: an unsigned integer encoding a real value as
integer / 2^32", so the scale is `2^32`. -/
def fixed_point_32.Q32 : Nat := 4294967296

/-- Modelled from the spec: the consumed fixed-point multiply-divide
utility (`full_math::MulDiv::mul_div_floor`, whose module is not in the
sources at hand).  Spec: "given `(a, b, denominator)` all unsigned 64-bit,
computes `floor(a × b / denominator)` using an intermediate wide enough to
avoid overflow for the full 64-bit input domain, returning a value that
fails conversion if it cannot fit back into 64 bits". -/
def full_math.mul_div_floor (a b denominator : Nat) : Option Nat :=
  if a * b / denominator < u64_MOD then some (a * b / denominator) else none

/-- Modelled from the spec: the consumed liquidity delta utility
(`liquidity_math::add_delta`, whose module is not in the sources at hand).
Spec: "given `(current: u64, delta: i64)`, returns `current + delta`
reinterpreted as unsigned, failing with an arithmetic error if the true
signed result is negative or exceeds the unsigned 64-bit range". -/
def liquidity_math.add_delta (x : Nat) (y : Int) : Option Nat :=
  if 0 ≤ (x : Int) + y ∧ (x : Int) + y < (u64_MOD : Int) then
    some ((x : Int) + y).toNat
  else
    none

/-- Typed error codes surfaced through the `Result` channel of `update`:
`NP` is `ErrorCode::NP` ("disallow pokes for 0 liquidity positions");
`Arithmetic` is the arithmetic over/underflow error raised by
`liquidity_math::add_delta` (spec §7 "ArithmeticOverflow/Underflow"). -/
inductive ErrorCode where
  | NP : ErrorCode
  | Arithmetic : ErrorCode
deriving DecidableEq, Repr

/-- Outcome of one `update` call.  `Err e` is a typed failure returned as
`Result::Err`; `Abort` models a Rust panic — in the source, `.unwrap()`
called on `None` from `mul_div_floor` — which never reaches the caller as
a typed `Result` error. -/
inductive UpdateResult where
  | Ok : UpdateResult
  | Err : ErrorCode → UpdateResult
  | Abort : UpdateResult
deriving DecidableEq, Repr

/-- The persistent position record (`PositionState` in the source): bump
seed byte, liquidity, the two Q32 fee-growth snapshots, and the two
accrued-fee totals.  All numeric fields are unsigned 64-bit values. -/
structure PositionState where
  bump : Nat
  liquidity : Nat
  fee_growth_inside_0_last_x32 : Nat
  fee_growth_inside_1_last_x32 : Nat
  tokens_owed_0 : Nat
  tokens_owed_1 : Nat
deriving DecidableEq, Repr

/-- Well-formedness of a record: every u64 field is in range.  (`bump`
never participates in arithmetic, so its range is irrelevant here.) -/
def PositionState.WF (s : PositionState) : Prop :=
  s.liquidity < u64_MOD ∧
  s.fee_growth_inside_0_last_x32 < u64_MOD ∧
  s.fee_growth_inside_1_last_x32 < u64_MOD ∧
  s.tokens_owed_0 < u64_MOD ∧
  s.tokens_owed_1 < u64_MOD

instance (s : PositionState) : Decidable s.WF := by
  unfold PositionState.WF
  infer_instance

/-- `PositionState::update`, embedded step for step from the source:
1. compute `liquidity_next` — a poke (`liquidity_delta == 0`) requires
   strictly positive stored liquidity (else `ErrorCode::NP`), otherwise
   `add_delta` is applied and its failure propagates by `?`;
2. compute both owed amounts from the wrapping accumulator difference and
   the PRE-update `self.liquidity`, `.unwrap()`ing the `mul_div_floor`
   results (a `None` panics: outcome `Abort`);
3. only then mutate: write `liquidity_next` if the delta is nonzero,
   unconditionally overwrite both snapshots, and wrap-add both owed
   amounts iff at least one of them is positive.
The returned record is the value of `self` when the call ends; every
early exit happens before the first field write. -/
def PositionState.update (s : PositionState) (liquidity_delta : Int)
    (fee_growth_inside_0_x32 fee_growth_inside_1_x32 : Nat) :
    PositionState × UpdateResult :=
  let liquidityNextStep : Except ErrorCode Nat :=
    if liquidity_delta = 0 then
      if 0 < s.liquidity then Except.ok s.liquidity
      else Except.error ErrorCode.NP
    else
      match liquidity_math.add_delta s.liquidity liquidity_delta with
      | some z => Except.ok z
      | none => Except.error ErrorCode.Arithmetic
  match liquidityNextStep with
  | Except.error e => (s, UpdateResult.Err e)
  | Except.ok liquidity_next =>
    match full_math.mul_div_floor
        (u64_sub fee_growth_inside_0_x32 s.fee_growth_inside_0_last_x32)
        s.liquidity fixed_point_32.Q32 with
    | none => (s, UpdateResult.Abort)
    | some tokens_owed_0 =>
      match full_math.mul_div_floor
          (u64_sub fee_growth_inside_1_x32 s.fee_growth_inside_1_last_x32)
          s.liquidity fixed_point_32.Q32 with
      | none => (s, UpdateResult.Abort)
      | some tokens_owed_1 =>
        let s1 := if liquidity_delta ≠ 0 then
            { s with liquidity := liquidity_next }
          else s
        let s2 := { s1 with
          fee_growth_inside_0_last_x32 := fee_growth_inside_0_x32,
          fee_growth_inside_1_last_x32 := fee_growth_inside_1_x32 }
        let s3 := if 0 < tokens_owed_0 ∨ 0 < tokens_owed_1 then
            { s2 with
              tokens_owed_0 := u64_add s2.tokens_owed_0 tokens_owed_0,
              tokens_owed_1 := u64_add s2.tokens_owed_1 tokens_owed_1 }
          else s2
        (s3, UpdateResult.Ok)

/-! ### Case lemmas for `PositionState.update` -/

/-- Shorthand for the owed-amount computation of step 2: the wrapping
accumulator difference times the pre-update liquidity, floor-divided by
`Q32`, converted back to u64 (`none` on conversion failure). -/
def feeOwed (g last liquidity : Nat) : Option Nat :=
  full_math.mul_div_floor (u64_sub g last) liquidity fixed_point_32.Q32

theorem update_poke_empty (s : PositionState) (g0 g1 : Nat)
    (h : s.liquidity = 0) :
    s.update 0 g0 g1 = (s, UpdateResult.Err ErrorCode.NP) := by
  simp [PositionState.update, h]

theorem update_delta_err (s : PositionState) (d : Int) (g0 g1 : Nat)
    (hd : d ≠ 0) (h : liquidity_math.add_delta s.liquidity d = none) :
    s.update d g0 g1 = (s, UpdateResult.Err ErrorCode.Arithmetic) := by
  simp [PositionState.update, hd, h]

theorem update_abort_0 (s : PositionState) (d : Int) (g0 g1 : Nat)
    (hstep : (d = 0 → 0 < s.liquidity) ∧
      (d ≠ 0 → liquidity_math.add_delta s.liquidity d ≠ none))
    (h0 : feeOwed g0 s.fee_growth_inside_0_last_x32 s.liquidity = none) :
    s.update d g0 g1 = (s, UpdateResult.Abort) := by
  unfold PositionState.update
  by_cases hd : d = 0
  · have hl := hstep.1 hd
    simp [hd, hl, feeOwed] at h0 ⊢
    simp [h0]
  · obtain ⟨z, hz⟩ := Option.ne_none_iff_exists'.mp (hstep.2 hd)
    simp [hd, hz, feeOwed] at h0 ⊢
    simp [h0]

theorem update_abort_1 (s : PositionState) (d : Int) (g0 g1 o0 : Nat)
    (hstep : (d = 0 → 0 < s.liquidity) ∧
      (d ≠ 0 → liquidity_math.add_delta s.liquidity d ≠ none))
    (h0 : feeOwed g0 s.fee_growth_inside_0_last_x32 s.liquidity = some o0)
    (h1 : feeOwed g1 s.fee_growth_inside_1_last_x32 s.liquidity = none) :
    s.update d g0 g1 = (s, UpdateResult.Abort) := by
  unfold PositionState.update
  by_cases hd : d = 0
  · have hl := hstep.1 hd
    simp [feeOwed] at h0 h1
    simp [hd, hl, h0, h1]
  · obtain ⟨z, hz⟩ := Option.ne_none_iff_exists'.mp (hstep.2 hd)
    simp [feeOwed] at h0 h1
    simp [hd, hz, h0, h1]

/-- Successful poke: `liquidity_delta = 0`, positive liquidity, both owed
conversions succeed.  The record keeps its liquidity, refreshes both
snapshots, and wrap-adds the owed amounts iff one of them is positive. -/
theorem update_ok_poke (s : PositionState) (g0 g1 o0 o1 : Nat)
    (hl : 0 < s.liquidity)
    (h0 : feeOwed g0 s.fee_growth_inside_0_last_x32 s.liquidity = some o0)
    (h1 : feeOwed g1 s.fee_growth_inside_1_last_x32 s.liquidity = some o1) :
    s.update 0 g0 g1 =
      (if 0 < o0 ∨ 0 < o1 then
        ⟨s.bump, s.liquidity, g0, g1,
          u64_add s.tokens_owed_0 o0, u64_add s.tokens_owed_1 o1⟩
      else ⟨s.bump, s.liquidity, g0, g1, s.tokens_owed_0, s.tokens_owed_1⟩,
      UpdateResult.Ok) := by
  unfold PositionState.update
  simp [feeOwed] at h0 h1
  simp [hl, h0, h1]

/-- Successful liquidity change: `liquidity_delta ≠ 0`, `add_delta`
returns `z`, both owed conversions succeed.  The record takes liquidity
`z`, refreshes both snapshots, and wrap-adds the owed amounts iff one of
them is positive. -/
theorem update_ok_delta (s : PositionState) (d : Int) (g0 g1 z o0 o1 : Nat)
    (hd : d ≠ 0)
    (hz : liquidity_math.add_delta s.liquidity d = some z)
    (h0 : feeOwed g0 s.fee_growth_inside_0_last_x32 s.liquidity = some o0)
    (h1 : feeOwed g1 s.fee_growth_inside_1_last_x32 s.liquidity = some o1) :
    s.update d g0 g1 =
      (if 0 < o0 ∨ 0 < o1 then
        ⟨s.bump, z, g0, g1,
          u64_add s.tokens_owed_0 o0, u64_add s.tokens_owed_1 o1⟩
      else ⟨s.bump, z, g0, g1, s.tokens_owed_0, s.tokens_owed_1⟩,
      UpdateResult.Ok) := by
  unfold PositionState.update
  simp [feeOwed] at h0 h1
  simp [hd, hz, h0, h1]

theorem add_delta_none_iff (x : Nat) (y : Int) :
    liquidity_math.add_delta x y = none ↔
      ((x : Int) + y < 0 ∨ (u64_MOD : Int) ≤ (x : Int) + y) := by
  unfold liquidity_math.add_delta
  split <;> rename_i h <;> simp <;> omega

theorem add_delta_some_val (x z : Nat) (y : Int)
    (h : liquidity_math.add_delta x y = some z) : (z : Int) = (x : Int) + y := by
  unfold liquidity_math.add_delta at h
  split at h <;> rename_i hc
  · cases h
    exact Int.toNat_of_nonneg hc.1
  · cases h

theorem feeOwed_some_iff (g last L o : Nat) :
    feeOwed g last L = some o ↔
      u64_sub g last * L / fixed_point_32.Q32 = o ∧ o < u64_MOD := by
  unfold feeOwed full_math.mul_div_floor
  split <;> rename_i h
  · simp only [Option.some.injEq]
    constructor
    · intro he
      subst he
      exact ⟨rfl, h⟩
    · intro he
      exact he.1
  · constructor
    · intro he
      exact Option.noConfusion he
    · intro he
      obtain ⟨h1, h2⟩ := he
      omega

/-- Exhaustive case analysis of one `update` call: it either rejects an
empty poke, rejects an out-of-range liquidity delta, aborts on a failed
owed-amount conversion (record untouched in all three cases), or succeeds
with the committed record shape. -/
theorem update_cases (s : PositionState) (d : Int) (g0 g1 : Nat) :
    (d = 0 ∧ s.liquidity = 0 ∧
      s.update d g0 g1 = (s, UpdateResult.Err ErrorCode.NP)) ∨
    (d ≠ 0 ∧ liquidity_math.add_delta s.liquidity d = none ∧
      s.update d g0 g1 = (s, UpdateResult.Err ErrorCode.Arithmetic)) ∨
    (s.update d g0 g1 = (s, UpdateResult.Abort) ∧
      ((d = 0 → 0 < s.liquidity) ∧
        (d ≠ 0 → liquidity_math.add_delta s.liquidity d ≠ none)) ∧
      (feeOwed g0 s.fee_growth_inside_0_last_x32 s.liquidity = none ∨
       feeOwed g1 s.fee_growth_inside_1_last_x32 s.liquidity = none)) ∨
    (∃ o0 o1 ln,
      feeOwed g0 s.fee_growth_inside_0_last_x32 s.liquidity = some o0 ∧
      feeOwed g1 s.fee_growth_inside_1_last_x32 s.liquidity = some o1 ∧
      ((d = 0 ∧ 0 < s.liquidity ∧ ln = s.liquidity) ∨
       (d ≠ 0 ∧ liquidity_math.add_delta s.liquidity d = some ln)) ∧
      s.update d g0 g1 =
        (if 0 < o0 ∨ 0 < o1 then
          ⟨s.bump, ln, g0, g1,
            u64_add s.tokens_owed_0 o0, u64_add s.tokens_owed_1 o1⟩
         else ⟨s.bump, ln, g0, g1, s.tokens_owed_0, s.tokens_owed_1⟩,
         UpdateResult.Ok)) := by
  by_cases hd : d = 0
  · by_cases hl : 0 < s.liquidity
    · cases e0 : feeOwed g0 s.fee_growth_inside_0_last_x32 s.liquidity with
      | none =>
        refine Or.inr (Or.inr (Or.inl
          ⟨?_, ⟨fun _ => hl, fun h => absurd hd h⟩, Or.inl rfl⟩))
        subst hd
        exact update_abort_0 s 0 g0 g1 ⟨fun _ => hl, fun h => absurd rfl h⟩ e0
      | some o0 =>
        cases e1 : feeOwed g1 s.fee_growth_inside_1_last_x32 s.liquidity with
        | none =>
          refine Or.inr (Or.inr (Or.inl
            ⟨?_, ⟨fun _ => hl, fun h => absurd hd h⟩, Or.inr rfl⟩))
          subst hd
          exact update_abort_1 s 0 g0 g1 o0
            ⟨fun _ => hl, fun h => absurd rfl h⟩ e0 e1
        | some o1 =>
          refine Or.inr (Or.inr (Or.inr ⟨o0, o1, s.liquidity, rfl, rfl,
            Or.inl ⟨hd, hl, rfl⟩, ?_⟩))
          subst hd
          exact update_ok_poke s g0 g1 o0 o1 hl e0 e1
    · have hz : s.liquidity = 0 := Nat.eq_zero_of_not_pos hl
      exact Or.inl ⟨hd, hz, hd ▸ update_poke_empty s g0 g1 hz⟩
  · cases ez : liquidity_math.add_delta s.liquidity d with
    | none =>
      exact Or.inr (Or.inl ⟨hd, rfl, update_delta_err s d g0 g1 hd ez⟩)
    | some z =>
      cases e0 : feeOwed g0 s.fee_growth_inside_0_last_x32 s.liquidity with
      | none =>
        refine Or.inr (Or.inr (Or.inl
          ⟨?_, ⟨fun h => absurd h hd, fun _ hc => Option.noConfusion hc⟩,
            Or.inl rfl⟩))
        exact update_abort_0 s d g0 g1
          ⟨fun h => absurd h hd, fun _ => ez ▸ fun h => Option.noConfusion h⟩ e0
      | some o0 =>
        cases e1 : feeOwed g1 s.fee_growth_inside_1_last_x32 s.liquidity with
        | none =>
          refine Or.inr (Or.inr (Or.inl
            ⟨?_, ⟨fun h => absurd h hd, fun _ hc => Option.noConfusion hc⟩,
              Or.inr rfl⟩))
          exact update_abort_1 s d g0 g1 o0
            ⟨fun h => absurd h hd, fun _ => ez ▸ fun h => Option.noConfusion h⟩ e0 e1
        | some o1 =>
          exact Or.inr (Or.inr (Or.inr ⟨o0, o1, z, rfl, rfl,
            Or.inr ⟨hd, rfl⟩, update_ok_delta s d g0 g1 z o0 o1 hd ez e0 e1⟩))

/-! ### Claim theorems -/

/-- C5: for every position whose stored liquidity is zero and all
accumulator inputs, `update(0, x, y)` fails with the `NP` (no-liquidity)
error, leaves the record untouched, and succeeds in no case. -/
theorem C5_poke_on_empty_rejected (s : PositionState) (g0 g1 : Nat)
    (h : s.liquidity = 0) :
    s.update 0 g0 g1 = (s, UpdateResult.Err ErrorCode.NP) ∧
      (s.update 0 g0 g1).2 ≠ UpdateResult.Ok := by
  have he := update_poke_empty s g0 g1 h
  refine ⟨he, ?_⟩
  rw [he]
  exact fun hc => UpdateResult.noConfusion hc

theorem C5_witness :
    PositionState.update ⟨1, 0, 2, 3, 4, 5⟩ 0 6 7 =
      (⟨1, 0, 2, 3, 4, 5⟩, UpdateResult.Err ErrorCode.NP) ∧
      (PositionState.update ⟨1, 0, 2, 3, 4, 5⟩ 0 6 7).2 ≠ UpdateResult.Ok :=
  C5_poke_on_empty_rejected ⟨1, 0, 2, 3, 4, 5⟩ 6 7 rfl

theorem update_not_ok_frame (s : PositionState) (d : Int)
    (g0 g1 : Nat) (h : (s.update d g0 g1).2 ≠ UpdateResult.Ok) :
    (s.update d g0 g1).1 = s := by
  rcases update_cases s d g0 g1 with
    ⟨-, -, he⟩ | ⟨-, -, he⟩ | ⟨he, -, -⟩ | ⟨o0, o1, ln, -, -, -, he⟩
  · rw [he]
  · rw [he]
  · rw [he]
  · rw [he] at h
    exact absurd rfl h

/-- C3: whenever `update` does not succeed (typed error or panic), the
returned record equals the record before the call in every field — no
partial commit is observable. -/
theorem C3_no_partial_writes_on_error (s : PositionState) (d : Int)
    (g0 g1 : Nat) (h : (s.update d g0 g1).2 ≠ UpdateResult.Ok) :
    (s.update d g0 g1).1 = s :=
  update_not_ok_frame s d g0 g1 h

theorem C3_witness :
    (PositionState.update ⟨7, 1500, 0, 0, 0, 0⟩ (-2000) 5 6).1 =
      ⟨7, 1500, 0, 0, 0, 0⟩ :=
  C3_no_partial_writes_on_error ⟨7, 1500, 0, 0, 0, 0⟩ (-2000) 5 6 (by decide)

/-- C7: after any successful `update(delta, g0, g1)`, the two stored
fee-growth snapshots equal exactly the accumulator inputs `g0`, `g1`,
whatever the delta sign and the computed fee amounts. -/
theorem C7_snapshots_always_advance (s : PositionState) (d : Int)
    (g0 g1 : Nat) (s' : PositionState)
    (h : s.update d g0 g1 = (s', UpdateResult.Ok)) :
    s'.fee_growth_inside_0_last_x32 = g0 ∧
      s'.fee_growth_inside_1_last_x32 = g1 := by
  rcases update_cases s d g0 g1 with
    ⟨-, -, he⟩ | ⟨-, -, he⟩ | ⟨he, -, -⟩ | ⟨o0, o1, ln, -, -, -, he⟩
  · rw [he] at h
    simp at h
  · rw [he] at h
    simp at h
  · rw [he] at h
    simp at h
  · rw [he] at h
    simp only [Prod.mk.injEq] at h
    obtain ⟨h1, -⟩ := h
    subst h1
    split <;> exact ⟨rfl, rfl⟩

theorem C7_witness :
    (⟨7, 1000, 4294967296, 0, 1000, 0⟩ :
        PositionState).fee_growth_inside_0_last_x32 = 4294967296 ∧
      (⟨7, 1000, 4294967296, 0, 1000, 0⟩ :
        PositionState).fee_growth_inside_1_last_x32 = 0 :=
  C7_snapshots_always_advance ⟨7, 1000, 0, 0, 0, 0⟩ 0 4294967296 0
    ⟨7, 1000, 4294967296, 0, 1000, 0⟩ (by decide)

/-- C10: `update` never writes the `bump` field, and a zero-delta call
(poke) never changes `liquidity` — only the five accounting fields are
ever written, and `liquidity` only when the delta is nonzero. -/
theorem C10_frame_bump_and_poke_liquidity (s : PositionState) (d : Int)
    (g0 g1 : Nat) :
    (s.update d g0 g1).1.bump = s.bump ∧
      (d = 0 → (s.update d g0 g1).1.liquidity = s.liquidity) := by
  rcases update_cases s d g0 g1 with
    ⟨-, -, he⟩ | ⟨-, -, he⟩ | ⟨he, -, -⟩ | ⟨o0, o1, ln, -, -, hln, he⟩
  · rw [he]
    exact ⟨rfl, fun _ => rfl⟩
  · rw [he]
    exact ⟨rfl, fun _ => rfl⟩
  · rw [he]
    exact ⟨rfl, fun _ => rfl⟩
  · rw [he]
    constructor
    · split <;> rfl
    · intro hd0
      have hln' : ln = s.liquidity := by
        rcases hln with ⟨-, -, h⟩ | ⟨hne, -⟩
        · exact h
        · exact absurd hd0 hne
      split <;> exact hln'

theorem C10_witness :
    (PositionState.update ⟨2, 10, 0, 0, 0, 0⟩ 0 5 6).1.bump = 2 ∧
      (PositionState.update ⟨2, 10, 0, 0, 0, 0⟩ 0 5 6).1.liquidity = 10 :=
  ⟨(C10_frame_bump_and_poke_liquidity ⟨2, 10, 0, 0, 0, 0⟩ 0 5 6).1,
   (C10_frame_bump_and_poke_liquidity ⟨2, 10, 0, 0, 0, 0⟩ 0 5 6).2 rfl⟩

theorem u64_sub_lt_eq (a b : Nat) (hb : b < u64_MOD) (hab : a < b) :
    u64_sub a b = a + u64_MOD - b := by
  unfold u64_sub
  have h1 : a + u64_MOD - b < u64_MOD := by omega
  exact Nat.mod_eq_of_lt h1

/-- C1: a successful `update(delta, g0, g1)` with `delta ≠ 0` adds exactly
`floor((g0 - last0) * L / 2^32)` and `floor((g1 - last1) * L / 2^32)` to
the owed totals (modulo 2^64), where `L` is the liquidity stored BEFORE
the call and `last0`, `last1` the snapshots stored before the call — not
the post-update liquidity `L + delta`. -/
theorem C1_fee_accrual_pre_update_liquidity (s : PositionState) (d : Int)
    (g0 g1 : Nat) (s' : PositionState) (hWF : s.WF) (_hd : d ≠ 0)
    (h : s.update d g0 g1 = (s', UpdateResult.Ok)) :
    s'.tokens_owed_0 = (s.tokens_owed_0 +
      u64_sub g0 s.fee_growth_inside_0_last_x32 * s.liquidity /
        fixed_point_32.Q32) % u64_MOD ∧
    s'.tokens_owed_1 = (s.tokens_owed_1 +
      u64_sub g1 s.fee_growth_inside_1_last_x32 * s.liquidity /
        fixed_point_32.Q32) % u64_MOD := by
  rcases update_cases s d g0 g1 with
    ⟨-, -, he⟩ | ⟨-, -, he⟩ | ⟨he, -, -⟩ | ⟨o0, o1, ln, e0, e1, -, he⟩
  · rw [he] at h
    simp at h
  · rw [he] at h
    simp at h
  · rw [he] at h
    simp at h
  · obtain ⟨ho0, -⟩ := (feeOwed_some_iff _ _ _ _).mp e0
    obtain ⟨ho1, -⟩ := (feeOwed_some_iff _ _ _ _).mp e1
    rw [he] at h
    simp only [Prod.mk.injEq] at h
    obtain ⟨h1, -⟩ := h
    subst h1
    rw [ho0, ho1]
    split <;> rename_i hpos
    · exact ⟨rfl, rfl⟩
    · push_neg at hpos
      have hz0 : o0 = 0 := by omega
      have hz1 : o1 = 0 := by omega
      subst hz0 hz1
      rw [Nat.add_zero, Nat.add_zero, Nat.mod_eq_of_lt hWF.2.2.2.1,
        Nat.mod_eq_of_lt hWF.2.2.2.2]
      exact ⟨rfl, rfl⟩

theorem C1_witness :
    (⟨7, 1500, 8589934592, 0, 2000, 0⟩ : PositionState).tokens_owed_0 =
      (1000 + u64_sub 8589934592
        ((⟨7, 1000, 4294967296, 0, 1000, 0⟩ : PositionState
          ).fee_growth_inside_0_last_x32) * 1000 / fixed_point_32.Q32) %
        u64_MOD ∧
    (⟨7, 1500, 8589934592, 0, 2000, 0⟩ : PositionState).tokens_owed_1 =
      (0 + u64_sub 0
        ((⟨7, 1000, 4294967296, 0, 1000, 0⟩ : PositionState
          ).fee_growth_inside_1_last_x32) * 1000 / fixed_point_32.Q32) %
        u64_MOD :=
  C1_fee_accrual_pre_update_liquidity ⟨7, 1000, 4294967296, 0, 1000, 0⟩
    500 8589934592 0 ⟨7, 1500, 8589934592, 0, 2000, 0⟩
    (by decide) (by decide) (by decide)

/-- C2: the accumulator subtraction inside `update` is modular unsigned
64-bit subtraction: when the passed accumulator `g0` is smaller than the
stored snapshot, the computation proceeds (no failure from the
subtraction) and the fee-growth delta used is the wrapped value
`g0 + 2^64 - last0`. -/
theorem C2_wrapping_accumulator_subtraction (s : PositionState)
    (g0 g1 : Nat) (hWF : s.WF) (hl : 0 < s.liquidity)
    (hlt : g0 < s.fee_growth_inside_0_last_x32)
    (hfit0 : (g0 + u64_MOD - s.fee_growth_inside_0_last_x32) *
      s.liquidity / fixed_point_32.Q32 < u64_MOD)
    (hfit1 : u64_sub g1 s.fee_growth_inside_1_last_x32 * s.liquidity /
      fixed_point_32.Q32 < u64_MOD) :
    (s.update 0 g0 g1).2 = UpdateResult.Ok ∧
    (s.update 0 g0 g1).1.tokens_owed_0 = (s.tokens_owed_0 +
      (g0 + u64_MOD - s.fee_growth_inside_0_last_x32) * s.liquidity /
        fixed_point_32.Q32) % u64_MOD := by
  have hsub : u64_sub g0 s.fee_growth_inside_0_last_x32 =
      g0 + u64_MOD - s.fee_growth_inside_0_last_x32 :=
    u64_sub_lt_eq g0 s.fee_growth_inside_0_last_x32 hWF.2.1 hlt
  have e0 : feeOwed g0 s.fee_growth_inside_0_last_x32 s.liquidity =
      some ((g0 + u64_MOD - s.fee_growth_inside_0_last_x32) *
        s.liquidity / fixed_point_32.Q32) :=
    (feeOwed_some_iff _ _ _ _).mpr ⟨by rw [hsub], hfit0⟩
  have e1 : feeOwed g1 s.fee_growth_inside_1_last_x32 s.liquidity =
      some (u64_sub g1 s.fee_growth_inside_1_last_x32 * s.liquidity /
        fixed_point_32.Q32) :=
    (feeOwed_some_iff _ _ _ _).mpr ⟨rfl, hfit1⟩
  have he := update_ok_poke s g0 g1 _ _ hl e0 e1
  rw [he]
  refine ⟨rfl, ?_⟩
  split <;> rename_i hpos
  · rfl
  · have hz0 : (g0 + u64_MOD - s.fee_growth_inside_0_last_x32) *
        s.liquidity / fixed_point_32.Q32 = 0 :=
      Nat.eq_zero_of_not_pos fun hc => hpos (Or.inl hc)
    rw [hz0, Nat.add_zero, Nat.mod_eq_of_lt hWF.2.2.2.1]

theorem C2_witness :
    (PositionState.update ⟨0, 4294967296, 18446744073709551615, 0, 0, 0⟩
      0 0 0).2 = UpdateResult.Ok ∧
    (PositionState.update ⟨0, 4294967296, 18446744073709551615, 0, 0, 0⟩
      0 0 0).1.tokens_owed_0 =
      (0 + (0 + u64_MOD - 18446744073709551615) * 4294967296 /
        fixed_point_32.Q32) % u64_MOD :=
  C2_wrapping_accumulator_subtraction
    ⟨0, 4294967296, 18446744073709551615, 0, 0, 0⟩ 0 0
    (by decide) (by decide) (by decide) (by decide) (by decide)

/-- C6: with a nonzero delta, the candidate liquidity is the true signed
sum `liquidity + delta`; the call returns the arithmetic error exactly
when that sum is negative or exceeds `u64::MAX`, and on success the
stored liquidity equals the sum. -/
theorem C6_liquidity_delta_checked (s : PositionState) (d : Int)
    (g0 g1 : Nat) (hd : d ≠ 0) :
    ((s.update d g0 g1).2 = UpdateResult.Err ErrorCode.Arithmetic ↔
      ((s.liquidity : Int) + d < 0 ∨
        (u64_MOD : Int) ≤ (s.liquidity : Int) + d)) ∧
    ((s.update d g0 g1).2 = UpdateResult.Ok →
      ((s.update d g0 g1).1.liquidity : Int) = (s.liquidity : Int) + d) := by
  constructor
  · constructor
    · intro herr
      rcases update_cases s d g0 g1 with
        ⟨hd0, -, -⟩ | ⟨-, hz, -⟩ | ⟨he, -, -⟩ | ⟨o0, o1, ln, -, -, -, he⟩
      · exact absurd hd0 hd
      · exact (add_delta_none_iff s.liquidity d).mp hz
      · rw [he] at herr
        exact absurd herr (by simp)
      · rw [he] at herr
        exact absurd herr (by simp)
    · intro hrange
      have hz : liquidity_math.add_delta s.liquidity d = none :=
        (add_delta_none_iff s.liquidity d).mpr hrange
      rw [update_delta_err s d g0 g1 hd hz]
  · intro hok
    rcases update_cases s d g0 g1 with
      ⟨hd0, -, -⟩ | ⟨-, -, he⟩ | ⟨he, -, -⟩ | ⟨o0, o1, ln, -, -, hln, he⟩
    · exact absurd hd0 hd
    · rw [he] at hok
      exact absurd hok (by simp)
    · rw [he] at hok
      exact absurd hok (by simp)
    · rcases hln with ⟨hd0, -, -⟩ | ⟨-, hz⟩
      · exact absurd hd0 hd
      · have hv := add_delta_some_val s.liquidity ln d hz
        rw [he]
        split <;> exact hv

theorem C6_witness :
    ((PositionState.update ⟨7, 1500, 0, 0, 0, 0⟩ (-2000) 5 6).2 =
        UpdateResult.Err ErrorCode.Arithmetic ↔
      (((1500 : Nat) : Int) + (-2000) < 0 ∨
        (u64_MOD : Int) ≤ ((1500 : Nat) : Int) + (-2000))) ∧
    ((PositionState.update ⟨7, 1000, 4294967296, 0, 1000, 0⟩ 500
        8589934592 0).1.liquidity : Int) = ((1000 : Nat) : Int) + 500 :=
  ⟨(C6_liquidity_delta_checked ⟨7, 1500, 0, 0, 0, 0⟩ (-2000) 5 6
      (by decide)).1,
   (C6_liquidity_delta_checked ⟨7, 1000, 4294967296, 0, 1000, 0⟩ 500
      8589934592 0 (by decide)).2 (by decide)⟩

/-- C4 counterexample: at liquidity `2^64 - 1`, stored snapshot `0` and
accumulator input `2^64 - 1`, the fee computation's multiply-then-divide
result does not fit in 64 bits, and the call's outcome is `Abort` — the
panic of the source's `.unwrap()` on the failed conversion — not a typed
error carried by the `Result` channel (`Err` with either of the two error
codes), contradicting the claim that a typed
`FixedPointConversionFailure` error is surfaced to the caller. -/
theorem C4_counterexample :
    (PositionState.update ⟨0, 18446744073709551615, 0, 0, 0, 0⟩ 0
      18446744073709551615 0).2 = UpdateResult.Abort ∧
    (PositionState.update ⟨0, 18446744073709551615, 0, 0, 0, 0⟩ 0
      18446744073709551615 0).2 ≠ UpdateResult.Err ErrorCode.NP ∧
    (PositionState.update ⟨0, 18446744073709551615, 0, 0, 0, 0⟩ 0
      18446744073709551615 0).2 ≠ UpdateResult.Err ErrorCode.Arithmetic ∧
    (PositionState.update ⟨0, 18446744073709551615, 0, 0, 0, 0⟩ 0
      18446744073709551615 0).2 ≠ UpdateResult.Ok := by
  decide

/-- C4 amended: whenever the earlier liquidity step passes and either fee
conversion fails to fit back into 64 bits, `update` aborts via the
`.unwrap()` panic (a checked failure, never a silent wrap) with the record
untouched; the failure is a panic, not a typed error returned through the
call's `Result`. -/
theorem C4_unwrap_panic_on_conversion_failure (s : PositionState)
    (d : Int) (g0 g1 : Nat)
    (hstep : (d = 0 → 0 < s.liquidity) ∧
      (d ≠ 0 → liquidity_math.add_delta s.liquidity d ≠ none))
    (hfail : feeOwed g0 s.fee_growth_inside_0_last_x32 s.liquidity = none ∨
      feeOwed g1 s.fee_growth_inside_1_last_x32 s.liquidity = none) :
    s.update d g0 g1 = (s, UpdateResult.Abort) := by
  rcases hfail with h0 | h1
  · exact update_abort_0 s d g0 g1 hstep h0
  · cases e0 : feeOwed g0 s.fee_growth_inside_0_last_x32 s.liquidity with
    | none => exact update_abort_0 s d g0 g1 hstep e0
    | some o0 => exact update_abort_1 s d g0 g1 o0 hstep e0 h1

theorem C4_witness :
    PositionState.update ⟨0, 18446744073709551614, 1, 0, 0, 0⟩ 0
      18446744073709551615 0 =
      (⟨0, 18446744073709551614, 1, 0, 0, 0⟩, UpdateResult.Abort) :=
  C4_unwrap_panic_on_conversion_failure
    ⟨0, 18446744073709551614, 1, 0, 0, 0⟩ 0 18446744073709551615 0
    ⟨fun _ => by decide, fun hc => absurd rfl hc⟩ (Or.inl (by decide))

theorem update_outcome_owed_independent (s : PositionState) (a b : Nat)
    (d : Int) (g0 g1 : Nat) :
    ((⟨s.bump, s.liquidity, s.fee_growth_inside_0_last_x32,
        s.fee_growth_inside_1_last_x32, a, b⟩ :
      PositionState).update d g0 g1).2 = (s.update d g0 g1).2 := by
  rcases update_cases s d g0 g1 with
    ⟨hd, hl, he⟩ | ⟨hd, hz, he⟩ | ⟨he, hstep, hfee⟩ |
    ⟨o0, o1, ln, e0, e1, hln, he⟩
  · subst hd
    rw [he, update_poke_empty
      (⟨s.bump, s.liquidity, s.fee_growth_inside_0_last_x32,
        s.fee_growth_inside_1_last_x32, a, b⟩ : PositionState) g0 g1 hl]
  · rw [he, update_delta_err
      (⟨s.bump, s.liquidity, s.fee_growth_inside_0_last_x32,
        s.fee_growth_inside_1_last_x32, a, b⟩ : PositionState) d g0 g1 hd hz]
  · rw [he]
    rcases hfee with h0 | h1
    · rw [update_abort_0
        (⟨s.bump, s.liquidity, s.fee_growth_inside_0_last_x32,
        s.fee_growth_inside_1_last_x32, a, b⟩ : PositionState) d g0 g1 hstep h0]
    · cases e0 : feeOwed g0 s.fee_growth_inside_0_last_x32 s.liquidity with
      | none =>
        rw [update_abort_0
          (⟨s.bump, s.liquidity, s.fee_growth_inside_0_last_x32,
        s.fee_growth_inside_1_last_x32, a, b⟩ : PositionState) d g0 g1 hstep e0]
      | some o0 =>
        rw [update_abort_1
          (⟨s.bump, s.liquidity, s.fee_growth_inside_0_last_x32,
        s.fee_growth_inside_1_last_x32, a, b⟩ : PositionState) d g0 g1 o0 hstep e0 h1]
  · rw [he]
    rcases hln with ⟨hd0, hl, -⟩ | ⟨hd0, hz⟩
    · subst hd0
      rw [update_ok_poke
        (⟨s.bump, s.liquidity, s.fee_growth_inside_0_last_x32,
        s.fee_growth_inside_1_last_x32, a, b⟩ : PositionState) g0 g1 o0 o1 hl e0 e1]
    · rw [update_ok_delta
        (⟨s.bump, s.liquidity, s.fee_growth_inside_0_last_x32,
        s.fee_growth_inside_1_last_x32, a, b⟩ : PositionState) d g0 g1 ln o0 o1 hd0 hz e0 e1]

/-- C8: when at least one computed fee amount is positive, a successful
`update` adds BOTH amounts to the owed totals with wrapping (mod 2^64)
unsigned addition, and the call's outcome never depends on the current
owed totals — so the accumulation can neither fail nor saturate for any
values of the running totals. -/
theorem C8_wrapping_owed_accumulation (s : PositionState) (d : Int)
    (g0 g1 : Nat) (a b : Nat) (s' : PositionState) (o0 o1 : Nat)
    (h : s.update d g0 g1 = (s', UpdateResult.Ok))
    (h0 : feeOwed g0 s.fee_growth_inside_0_last_x32 s.liquidity = some o0)
    (h1 : feeOwed g1 s.fee_growth_inside_1_last_x32 s.liquidity = some o1)
    (hpos : 0 < o0 ∨ 0 < o1) :
    s'.tokens_owed_0 = (s.tokens_owed_0 + o0) % u64_MOD ∧
    s'.tokens_owed_1 = (s.tokens_owed_1 + o1) % u64_MOD ∧
    ((⟨s.bump, s.liquidity, s.fee_growth_inside_0_last_x32,
        s.fee_growth_inside_1_last_x32, a, b⟩ :
      PositionState).update d g0 g1).2 = (s.update d g0 g1).2 := by
  refine ⟨?_, ?_, update_outcome_owed_independent s a b d g0 g1⟩ <;>
  · rcases update_cases s d g0 g1 with
      ⟨-, -, he⟩ | ⟨-, -, he⟩ | ⟨he, -, -⟩ | ⟨p0, p1, ln, e0, e1, -, he⟩
    · rw [he] at h
      simp at h
    · rw [he] at h
      simp at h
    · rw [he] at h
      simp at h
    · rw [h0] at e0
      rw [h1] at e1
      injection e0 with hp0
      injection e1 with hp1
      subst hp0 hp1
      rw [he] at h
      simp only [Prod.mk.injEq] at h
      obtain ⟨hrec, -⟩ := h
      subst hrec
      rw [if_pos hpos]
      rfl

theorem C8_witness :
    (⟨7, 1000, 4294967296, 0, 1000, 0⟩ :
        PositionState).tokens_owed_0 = (0 + 1000) % u64_MOD ∧
    (⟨7, 1000, 4294967296, 0, 1000, 0⟩ :
        PositionState).tokens_owed_1 = (0 + 0) % u64_MOD ∧
    ((⟨7, 1000, 0, 0, 3, 4⟩ : PositionState).update 0 4294967296 0).2 =
      ((⟨7, 1000, 0, 0, 0, 0⟩ : PositionState).update 0 4294967296 0).2 :=
  C8_wrapping_owed_accumulation ⟨7, 1000, 0, 0, 0, 0⟩ 0 4294967296 0 3 4
    ⟨7, 1000, 4294967296, 0, 1000, 0⟩ 1000 0
    (by decide) (by decide) (by decide) (Or.inl (by decide))

/-- Run a finite sequence of `update` calls (delta, accumulator 0,
accumulator 1) against a record; a failed call leaves the record as the
call returned it (which is unchanged, every early exit preceding the
first write). -/
def runUpdates : PositionState → List (Int × Nat × Nat) → PositionState
  | s, [] => s
  | s, c :: rest => runUpdates (s.update c.1 c.2.1 c.2.2).1 rest

/-- Sum of the `liquidity_delta` arguments of exactly the calls of the
sequence that succeed when run in order. -/
def acceptedDeltaSum : PositionState → List (Int × Nat × Nat) → Int
  | _, [] => 0
  | s, c :: rest =>
    (if (s.update c.1 c.2.1 c.2.2).2 = UpdateResult.Ok then c.1 else 0) +
      acceptedDeltaSum (s.update c.1 c.2.1 c.2.2).1 rest

theorem update_liquidity_step (s : PositionState) (d : Int)
    (g0 g1 : Nat) :
    ((s.update d g0 g1).1.liquidity : Int) = (s.liquidity : Int) +
      (if (s.update d g0 g1).2 = UpdateResult.Ok then d else 0) := by
  by_cases hok : (s.update d g0 g1).2 = UpdateResult.Ok
  · rw [if_pos hok]
    rcases update_cases s d g0 g1 with
      ⟨-, -, he⟩ | ⟨-, -, he⟩ | ⟨he, -, -⟩ | ⟨o0, o1, ln, -, -, hln, he⟩
    · rw [he] at hok
      exact absurd hok (by simp)
    · rw [he] at hok
      exact absurd hok (by simp)
    · rw [he] at hok
      exact absurd hok (by simp)
    · rw [he]
      rcases hln with ⟨hd0, -, hln⟩ | ⟨-, hz⟩
      · subst hd0
        subst hln
        split <;> simp
      · have hv := add_delta_some_val s.liquidity ln d hz
        split <;> exact hv
  · rw [if_neg hok, update_not_ok_frame s d g0 g1 hok]
    exact (Int.add_zero _).symm

/-- C9: after any finite sequence of `update` calls, the stored liquidity
equals the initial liquidity plus the sum of the deltas of exactly the
calls that succeeded (failed calls contribute nothing), and it is never
negative. -/
theorem C9_liquidity_bookkeeping (calls : List (Int × Nat × Nat))
    (s : PositionState) :
    ((runUpdates s calls).liquidity : Int) =
      (s.liquidity : Int) + acceptedDeltaSum s calls ∧
    0 ≤ ((runUpdates s calls).liquidity : Int) := by
  induction calls generalizing s with
  | nil => exact ⟨by simp [runUpdates, acceptedDeltaSum], Int.natCast_nonneg _⟩
  | cons c rest ih =>
    refine ⟨?_, Int.natCast_nonneg _⟩
    have ih' := (ih (s.update c.1 c.2.1 c.2.2).1).1
    have hstep := update_liquidity_step s c.1 c.2.1 c.2.2
    show ((runUpdates (s.update c.1 c.2.1 c.2.2).1 rest).liquidity : Int) = _
    rw [ih', hstep]
    show _ = (s.liquidity : Int) +
      ((if (s.update c.1 c.2.1 c.2.2).2 = UpdateResult.Ok then c.1 else 0) +
        acceptedDeltaSum (s.update c.1 c.2.1 c.2.2).1 rest)
    ring
